import Mathlib

/-!
Verification development for the modbot moderation engine and vouch ledger.

The definitions below are a shallow embedding of the Python sources:
  - `moderation.py`      (pattern matcher, vouch extractor, classification pipeline)
  - `config.py`          (lexicon data: keyword lists, regex pattern sources)
  - `vouch_db.py`        (vouch ledger over SQLite, modelled as a list of rows)
  - `modbot/services/vouches.py` (clean-vouch routing, modelled as a state machine
    over a `World` that records transport effects)

Modelling conventions:
  - Python strings are modelled as Lean `String` / `List Char`; all character
    classes are the ASCII fragment of Python's Unicode-aware classes (all
    texts of interest are ASCII).
  - Python `re` boolean searches are modelled by a small fuel-bounded
    backtracking matcher; substitutions (`re.sub`) are modelled by dedicated
    scanners that mirror the leftmost / greedy semantics of the pattern used.
  - SQLite `REAL` timestamps are modelled as `Rat`; "now" is passed as an
    explicit parameter.
  - SQL `NULL` is `Option.none`; SQL `=` on a possibly-NULL column is the
    strict `sqlEqStr` (NULL = anything is not true), while explicit
    `IS NULL` branches in the source become `Option` pattern matches.
-/

namespace Modbot

/-! ### Character classes (ASCII model of Python's `str` / `re` classes) -/

def isSpaceChar (c : Char) : Bool :=
  c = ' ' || c = '\t' || c = '\n' || c = '\r' || c = '\x0b' || c = '\x0c'

def isDigitChar (c : Char) : Bool := '0' ≤ c && c ≤ '9'

def isAlphaChar (c : Char) : Bool := ('a' ≤ c && c ≤ 'z') || ('A' ≤ c && c ≤ 'Z')

/-- Python regex `\w` (ASCII fragment). -/
def isWordChar (c : Char) : Bool := isAlphaChar c || isDigitChar c || c = '_'

/-- ASCII `str.lower`. -/
def lowerChar (c : Char) : Char :=
  if 'A' ≤ c && c ≤ 'Z' then Char.ofNat (c.toNat + 32) else c

def lowerStr (s : List Char) : List Char := s.map lowerChar

/-- Python `str.strip()` (ASCII whitespace). -/
def stripWs (s : List Char) : List Char :=
  ((s.dropWhile isSpaceChar).reverse.dropWhile isSpaceChar).reverse

/-- Does `pat` occur as a prefix of `s`? -/
def substrAt : List Char → List Char → Bool
  | [], _ => true
  | _ :: _, [] => false
  | p :: ps, c :: cs => p = c && substrAt ps cs

/-- Python `pat in s` (substring containment). -/
def containsSub : List Char → List Char → Bool
  | [], pat => substrAt pat []
  | s@(_ :: rest), pat => substrAt pat s || containsSub rest pat

/-- Python `re.sub(r"\s+", " ", s)` (fuel-bounded so the kernel can
evaluate it; every step consumes at least the head, so `s.length + 1`
always suffices). -/
def collapseWsGo : Nat → List Char → List Char
  | 0, s => s
  | _, [] => []
  | fuel + 1, c :: cs =>
      if isSpaceChar c then ' ' :: collapseWsGo fuel (cs.dropWhile isSpaceChar)
      else c :: collapseWsGo fuel cs

def collapseWs (s : List Char) : List Char := collapseWsGo (s.length + 1) s

/-- Python `str.lstrip("@")`. -/
def lstripAt (s : List Char) : List Char := s.dropWhile (· = '@')

/-! ### A small regex matcher (boolean search semantics)

Only the constructs appearing in the source's patterns are supported:
literals, the classes `\s \w \d [a-zA-Z0-9] .`, `*` / `+` over a class,
alternation of token sequences, optional groups and `\b`.  The matcher is
fuel-bounded; greedy vs. lazy is irrelevant because only the existence of a
match is ever consumed by the source's boolean `re.search` uses. -/

inductive CCls where
  | space | word | digit | alnum | dot
  deriving Repr, DecidableEq

def cclsEval : CCls → Char → Bool
  | .space, c => isSpaceChar c
  | .word, c => isWordChar c
  | .digit, c => isDigitChar c
  | .alnum, c => isAlphaChar c || isDigitChar c
  | .dot, c => c ≠ '\n'

inductive RTok where
  | lit : Char → RTok
  | one : CCls → RTok
  | star : CCls → RTok
  | plus : CCls → RTok
  | bnd : RTok
  | alt : List (List RTok) → RTok
  | opt : List RTok → RTok
  deriving Repr

/-- Python regex `\b` at the point between `prev` and the head of `s`. -/
def wordBoundary (prev : Option Char) (s : List Char) : Bool :=
  let l := match prev with | none => false | some c => isWordChar c
  let r := match s with | [] => false | c :: _ => isWordChar c
  l != r

def matchToks : Nat → List RTok → Option Char → List Char → Bool
  | 0, _, _, _ => false
  | _ + 1, [], _, _ => true
  | fuel + 1, .lit c :: ts, _, s =>
      match s with
      | [] => false
      | x :: xs => x = c && matchToks fuel ts (some x) xs
  | fuel + 1, .one k :: ts, _, s =>
      match s with
      | [] => false
      | x :: xs => cclsEval k x && matchToks fuel ts (some x) xs
  | fuel + 1, .star k :: ts, prev, s =>
      matchToks fuel ts prev s ||
        (match s with
         | [] => false
         | x :: xs => cclsEval k x && matchToks fuel (.star k :: ts) (some x) xs)
  | fuel + 1, .plus k :: ts, _, s =>
      match s with
      | [] => false
      | x :: xs => cclsEval k x && matchToks fuel (.star k :: ts) (some x) xs
  | fuel + 1, .bnd :: ts, prev, s => wordBoundary prev s && matchToks fuel ts prev s
  | fuel + 1, .alt alts :: ts, prev, s => alts.any fun l => matchToks fuel (l ++ ts) prev s
  | fuel + 1, .opt l :: ts, prev, s =>
      matchToks fuel (l ++ ts) prev s || matchToks fuel ts prev s

def searchFrom (fuel : Nat) (toks : List RTok) : Option Char → List Char → Bool
  | prev, s =>
      matchToks fuel toks prev s ||
        match s with
        | [] => false
        | x :: xs => searchFrom fuel toks (some x) xs

/-- Python `bool(re.search(toks, s))`.  The fuel generously bounds the
backtracking depth for every pattern occurring in the source. -/
def reSearch (toks : List RTok) (s : List Char) : Bool :=
  searchFrom (1000 + 2 * s.length) toks none s

/-- Literal token sequence for a plain string. -/
def litToks (s : String) : List RTok := s.data.map RTok.lit

/-- Token sequence for `re.escape(kw).replace(r"\ ", r"\s+")` as built in
`is_vouch`: each space of the keyword matches one-or-more whitespace. -/
def kwToks (s : String) : List RTok :=
  s.data.map fun c => if c = ' ' then RTok.plus .space else RTok.lit c

/-- Alternation of plain literal words. -/
def altLit (ws : List String) : RTok := RTok.alt (ws.map litToks)

/-! ### moderation.py: vouch request detection and `is_vouch` -/

/-- The eight `request_patterns` regexes of `is_vouch_request`, token for
token (`\s+` / `\s*` over the whitespace class, `\b` boundaries,
`(?:...)?` optional groups, alternations). -/
def vouchRequestToks : List (List RTok) :=
  [ -- \bany(?:one)?\s+vouches?\b   (the ? quantifies only the final s)
    [RTok.bnd] ++ litToks "any" ++ [RTok.opt (litToks "one"), RTok.plus .space] ++
      litToks "vouche" ++ [RTok.opt (litToks "s"), RTok.bnd]
  , -- \bany\s+vouches?\s+on\b
    [RTok.bnd] ++ litToks "any" ++ [RTok.plus .space] ++ litToks "vouche" ++
      [RTok.opt (litToks "s"), RTok.plus .space] ++ litToks "on" ++ [RTok.bnd]
  , -- \bvouches?\s*\?
    [RTok.bnd] ++ litToks "vouche" ++ [RTok.opt (litToks "s"), RTok.star .space, RTok.lit '?']
  , -- \bcan\s+(?:someone|anyone|ya|yall)\s+vouch\b
    [RTok.bnd] ++ litToks "can" ++ [RTok.plus .space, altLit ["someone", "anyone", "ya", "yall"],
      RTok.plus .space] ++ litToks "vouch" ++ [RTok.bnd]
  , -- \bwho\s+(?:can|able\s+to)\s+vouch\b
    [RTok.bnd] ++ litToks "who" ++ [RTok.plus .space,
      RTok.alt [litToks "can", litToks "able" ++ [RTok.plus .space] ++ litToks "to"],
      RTok.plus .space] ++ litToks "vouch" ++ [RTok.bnd]
  , -- \bneed(?:s)?\s+(?:a\s+)?vouch\b
    [RTok.bnd] ++ litToks "need" ++ [RTok.opt (litToks "s"), RTok.plus .space,
      RTok.opt (litToks "a" ++ [RTok.plus .space])] ++ litToks "vouch" ++ [RTok.bnd]
  , -- \blooking\s+for\s+vouch
    [RTok.bnd] ++ litToks "looking" ++ [RTok.plus .space] ++ litToks "for" ++
      [RTok.plus .space] ++ litToks "vouch"
  , -- \bvouch(?:es)?\s+on\b
    [RTok.bnd] ++ litToks "vouch" ++ [RTok.opt (litToks "es"), RTok.plus .space] ++
      litToks "on" ++ [RTok.bnd]
  ]

/-- `moderation.is_vouch_request`: quick `"vouch" in text` guard, then the
request regexes against `re.sub(r"\s+", " ", text.strip().lower())`. -/
def is_vouch_request (text : String) : Bool :=
  if text = "" then false
  else if ! containsSub text.data "vouch".data then false
  else
    let normalized := collapseWs (lowerStr (stripWs text.data))
    vouchRequestToks.any fun p => reSearch p normalized

/-- The `vouch_keywords` list of `is_vouch` (positive then negative cues),
in source order. -/
def vouch_keywords : List String :=
  [ "pos vouch", "positive vouch", "+vouch", "+rep",
    "vouch for", "vouch", "+1", "solid", "legend", "legit",
    "good seller", "good buyer", "trusted", "trustworthy",
    "recommend", "can vouch", "i vouch", "vouched", "vouching",
    "neg vouch", "negative vouch", "-vouch", "-rep",
    "scammer", "scam", "do not recommend", "vouch against" ]

/-- The composite pattern of `is_vouch`:
`(?:KW.*@\w+|@\w+.*KW)` where `KW` is the alternation of the keywords with
spaces generalized to `\s+` (and `.` not crossing newlines). -/
def compositeVouchToks : List RTok :=
  let kwAlt := RTok.alt (vouch_keywords.map kwToks)
  [RTok.alt
      [ [kwAlt, RTok.star .dot, RTok.lit '@', RTok.plus .word]
      , [RTok.lit '@', RTok.plus .word, RTok.star .dot, kwAlt] ]]

/-- `moderation.is_vouch`: length guard, vouch-request exclusion, then the
composite keyword + mention pattern on the lowered text. -/
def is_vouch (text : String) : Bool :=
  if text = "" || text.length < 5 then false
  else
    let textLower := lowerStr text.data
    if is_vouch_request (String.mk textLower) then false
    else reSearch compositeVouchToks textLower

/-! ### moderation.py: mention handling -/

/-- `MENTION_REGEX = @[\w\d_]+` applied as `sub(" ", text)`
(`strip_mentions`): each maximal `@`-mention is replaced by one space
(fuel-bounded scan, every step consumes at least the head). -/
def stripMentionsGo : Nat → List Char → List Char
  | 0, s => s
  | _, [] => []
  | fuel + 1, c :: rest =>
      if c = '@' && rest.takeWhile isWordChar ≠ [] then
        ' ' :: stripMentionsGo fuel (rest.dropWhile isWordChar)
      else c :: stripMentionsGo fuel rest

def stripMentionsL (s : List Char) : List Char := stripMentionsGo (s.length + 1) s

/-- `MENTION_REGEX.findall` with the `lstrip("@")` of `extract_mentions`:
bare usernames, in order of appearance. -/
def extractMentionsGo : Nat → List Char → List (List Char)
  | 0, _ => []
  | _, [] => []
  | fuel + 1, c :: rest =>
      if c = '@' && rest.takeWhile isWordChar ≠ [] then
        rest.takeWhile isWordChar :: extractMentionsGo fuel (rest.dropWhile isWordChar)
      else extractMentionsGo fuel rest

def extractMentionsL (s : List Char) : List (List Char) :=
  extractMentionsGo (s.length + 1) s

/-- `moderation.extract_mentions`. -/
def extract_mentions (text : String) : List String :=
  (extractMentionsL text.data).map String.mk

def strip_mentions (text : String) : String :=
  String.mk (stripMentionsL text.data)

/-! ### config.py: the lexicon -/

/-- An apostrophe, kept out of string literals. -/
def apos : String := String.mk [Char.ofNat 39]

def SCAM_DOMAINS : List String :=
  [ "bit.ly/free", "tinyurl.com/free", "shorturl.at/free",
    "bit.do/win", "cutt.ly/earn", "rebrand.ly/prize",
    "t.me/pump", "telegram.me/crypto", "t.me/airdrop",
    "airdrop-now", "free-bitcoin", "btc-giveaway",
    "eth-airdrop", "crypto-moon", "pump-signal",
    "guaranteed-profit", "100x-gains", "moonshot-alert",
    "get-rich-quick", "make-money-fast", "passive-income-now",
    "investment-guaranteed", "forex-signals", "trading-bot-free",
    "binary-options-win", "loan-approved-now",
    "verify-account-now", "secure-wallet-update", "claim-reward-here",
    "reset-password-urgent", "account-suspended-fix" ]

/-- `BANNED_KEYWORDS_FLAT`: the four categories of `BANNED_KEYWORDS`
flattened in dict order (illegal_goods, transaction_phrases, spam_scam,
evasion_tactics). -/
def BANNED_KEYWORDS_FLAT : List String :=
  [ -- illegal_goods
    "kys",
    "buy weed", "weed for sale", "sell weed", "get bud", "thc carts", "buy edibles", "weed drop",
    "buy coke", "coke for sale", "sell cocaine", "coke available", "coke drop", "charlie for sale",
    "buy heroin", "heroin for sale", "fentanyl for sale", "oxy for sale", "sell oxys",
    "buy meth", "meth for sale", "ice for sale", "shards for sale",
    "buy mdma", "mdma for sale", "get pingas",
    "buy lsd", "lsd for sale", "get shrooms",
    "buy xanax", "xanax for sale", "get bars", "valium for sale",
    "buy ket", "ket for sale",
    "gun for sale", "buy a gun", "firearm", "handgun", "rifle", "shotgun", "ammo", "ammunition",
    "explosives", "bomb", "c4", "dynamite", "tnt", "ghost gun", "3d printed gun",
    "counterfeit money", "fake notes", "cloned cards", "stolen goods", "hot items",
    "ssn", "credit card numbers", "bank logs", "fake passport", "fake id", "fake documents",
    "forged documents", "forged passport", "forged id", "document fraud", "identity fraud",
    -- transaction_phrases
    "price list", "pricelist",
    "wtb", "w2b",
    "bulk deals", "bulk pricing", "wholesale",
    "re-up", "reup",
    "meth for sale", "molly for sale", "crack for sale",
    -- spam_scam
    "get rich quick", "free money", "investment", "guaranteed returns", "ponzi", "pyramid scheme",
    "mlm", "forex", "binary options", "crypto pump", "airdrops", "giveaway", "hacker for hire",
    "ddos", "botnet", "malware", "virus", "phishing", "fake login", "escort", "sex services",
    "hitman", "assassin", "hate speech", "nazi", "racist", "kkk", "supremacy",
    "terrorism", "isis", "jihad", "t.me/+", "t.me/joinchat",
    -- evasion_tactics
    "on the gear", "on the glass", "hot plate", "sesh",
    "not a cop", "no cops", "discreet drop", "stealth shipping", "no feds", "legit vendor",
    "no time wasters", "serious buyers only" ]

def URL_SHORTENERS : List String :=
  [ "bit.ly", "tinyurl.com", "shorturl.at", "ow.ly", "is.gd",
    "buff.ly", "adf.ly", "bit.do", "mcaf.ee", "su.pr",
    "cutt.ly", "rebrand.ly", "clk.im", "x.co", "goo.gl" ]

def WHITELIST_PHRASES : List String :=
  [ "anti-drug campaign", "drug awareness", "say no to drugs",
    "weapon safety", "firearm safety course", "gun control discussion",
    "child protection", "protect children from", "child safety",
    "scam awareness", "avoid scams", "scam alert",
    "bitcoin education", "crypto basics", "blockchain technology",
    "fake news", "fake id in comedy", "counterfeit money in movies",
    "fake passport in movie", "fake id in movie", "forged documents in fiction",
    "kill yourself in video games", "kill yourself in movies", "kys in game", "kys in video game",
    "kill yourself in a video game", "kill yourself in a game", "kill yourself in a movie",
    "mass shooting prevention", "mass shooting awareness",
    "keywords you can" ++ apos ++ "t use", "keywords you can use", "banned keywords",
    "drugs are bad", "drug test", "drug prevention",
    "weapons of mass destruction", "weapon safety training" ]

/-- A `SUSPICIOUS_PATTERNS` / `SCAM_URL_PATTERNS` entry: the Python source
text of the regex (used by `check_patterns` to assign severity by scanning
the source for category terms) together with its token translation. -/
structure SPat where
  src : String
  toks : List RTok

/-- `SCAM_URL_PATTERNS` from config.py. -/
def SCAM_URL_PATTERNS : List SPat :=
  [ { src := "bit\\.ly/(?:free|win|earn|prize|claim)"
    , toks := litToks "bit.ly/" ++ [altLit ["free", "win", "earn", "prize", "claim"]] }
  , { src := "(?:tinyurl|shorturl|cutt\\.ly)/(?:free|crypto|btc|eth)"
    , toks := [altLit ["tinyurl", "shorturl", "cutt.ly"], RTok.lit '/',
               altLit ["free", "crypto", "btc", "eth"]] }
  , { src := "t\\.me/\\w+\\?start=[a-zA-Z0-9]\x7b20,\x7d"
    , toks := litToks "t.me/" ++ [RTok.plus .word] ++ litToks "?start=" ++
              List.replicate 20 (RTok.one .alnum) ++ [RTok.star .alnum] }
  , { src := "(?:verify|confirm|secure|update|claim).*(?:account|wallet|prize)"
    , toks := [altLit ["verify", "confirm", "secure", "update", "claim"], RTok.star .dot,
               altLit ["account", "wallet", "prize"]] }
  ]

/-- Shorthand builders used to transcribe `SUSPICIOUS_PATTERNS`. -/
def sp1 : RTok := RTok.plus .space

def sp0 : RTok := RTok.star .space

/-- `SUSPICIOUS_PATTERNS` from config.py, in source order. -/
def SUSPICIOUS_PATTERNS : List SPat :=
  [ { src := "\\b(?:selling|buying|offering|dealing|supply|distribute)\\s+(?:cocaine|heroin|meth|fentanyl|mdma|ecstasy|lsd|weed|cannabis|opioid)\\b"
    , toks := [RTok.bnd, altLit ["selling", "buying", "offering", "dealing", "supply", "distribute"], sp1,
               altLit ["cocaine", "heroin", "meth", "fentanyl", "mdma", "ecstasy", "lsd", "weed", "cannabis", "opioid"], RTok.bnd] }
  , { src := "\\b(?:for|buying|selling)\\s+(?:cocaine|heroin|meth|fentanyl|drugs|weed)\\b"
    , toks := [RTok.bnd, altLit ["for", "buying", "selling"], sp1,
               altLit ["cocaine", "heroin", "meth", "fentanyl", "drugs", "weed"], RTok.bnd] }
  , { src := "\\b(?:buy|sell|trade|purchase|selling|offer)\\s+(?:drugs|weed|cocaine|heroin|meth|pills|xanax|oxy|fentanyl|mdma|lsd)\\b"
    , toks := [RTok.bnd, altLit ["buy", "sell", "trade", "purchase", "selling", "offer"], sp1,
               altLit ["drugs", "weed", "cocaine", "heroin", "meth", "pills", "xanax", "oxy", "fentanyl", "mdma", "lsd"], RTok.bnd] }
  , { src := "\\b(?:cocaine|heroin|meth|fentanyl|xanax|oxy|drugs)\\s+(?:available|for sale|in stock|pm me|message me|hit me up)\\b"
    , toks := [RTok.bnd, altLit ["cocaine", "heroin", "meth", "fentanyl", "xanax", "oxy", "drugs"], sp1,
               altLit ["available", "for sale", "in stock", "pm me", "message me", "hit me up"], RTok.bnd] }
  , { src := "\\b(?:been|been\\s+buying|been\\s+selling|was\\s+buying)\\s+(?:cocaine|heroin|meth|drugs|weed|fentanyl)\\b"
    , toks := [RTok.bnd,
               RTok.alt [litToks "been", litToks "been" ++ [sp1] ++ litToks "buying",
                         litToks "been" ++ [sp1] ++ litToks "selling",
                         litToks "was" ++ [sp1] ++ litToks "buying"], sp1,
               altLit ["cocaine", "heroin", "meth", "drugs", "weed", "fentanyl"], RTok.bnd] }
  , { src := "\\b\\d+(?:\\.\\d+)?\\s*(?:oz|ounce|ounces|gram|kilo|kg|lb)\\s+(?:of\\s+)?(?:cocaine|heroin|meth|fentanyl|opioid)\\b"
    , toks := [RTok.bnd, RTok.plus .digit, RTok.opt (RTok.lit '.' :: [RTok.plus .digit]), sp0,
               altLit ["oz", "ounce", "ounces", "gram", "kilo", "kg", "lb"], sp1,
               RTok.opt (litToks "of" ++ [sp1]),
               altLit ["cocaine", "heroin", "meth", "fentanyl", "opioid"], RTok.bnd] }
  , { src := "\\b(?:half|quarter|eighth)\\s*(?:oz|ounce|ounces|pound|lb)\\s+(?:of\\s+)?(?:cocaine|heroin|meth|opioid)\\b"
    , toks := [RTok.bnd, altLit ["half", "quarter", "eighth"], sp0,
               altLit ["oz", "ounce", "ounces", "pound", "lb"], sp1,
               RTok.opt (litToks "of" ++ [sp1]),
               altLit ["cocaine", "heroin", "meth", "opioid"], RTok.bnd] }
  , { src := "\\b(?:quarter\\s*pound|qp|qps|eighth|half\\s*ounce)\\s+(?:cocaine|heroin|meth|weed)\\b"
    , toks := [RTok.bnd,
               RTok.alt [litToks "quarter" ++ [sp0] ++ litToks "pound", litToks "qp", litToks "qps",
                         litToks "eighth", litToks "half" ++ [sp0] ++ litToks "ounce"], sp1,
               altLit ["cocaine", "heroin", "meth", "weed"], RTok.bnd] }
  , { src := "\\b(?:counterfeit|fake|forged)\\s+(?:money|bills|passport|id|license|documents|ssn)\\s+(?:for sale|available|selling)\\b"
    , toks := [RTok.bnd, altLit ["counterfeit", "fake", "forged"], sp1,
               altLit ["money", "bills", "passport", "id", "license", "documents", "ssn"], sp1,
               altLit ["for sale", "available", "selling"], RTok.bnd] }
  , { src := "\\b(?:hack|crack|phish|steal|clone)\\s+(?:account|password|credit\\s*card|bank|wallet|email)\\s+(?:for hire|service|available)\\b"
    , toks := [RTok.bnd, altLit ["hack", "crack", "phish", "steal", "clone"], sp1,
               RTok.alt [litToks "account", litToks "password",
                         litToks "credit" ++ [sp0] ++ litToks "card",
                         litToks "bank", litToks "wallet", litToks "email"], sp1,
               altLit ["for hire", "service", "available"], RTok.bnd] }
  , { src := "\\b(?:carding|dumps|fullz|cvv|bins)\\s+(?:for sale|available|selling)\\b"
    , toks := [RTok.bnd, altLit ["carding", "dumps", "fullz", "cvv", "bins"], sp1,
               altLit ["for sale", "available", "selling"], RTok.bnd] }
  , { src := "\\bstolen\\s+(?:credit\\s*cards?|data|accounts?|identit(?:y|ies))\\s+(?:for sale|available|selling)\\b"
    , toks := [RTok.bnd] ++ litToks "stolen" ++ [sp1,
               RTok.alt [litToks "credit" ++ [sp0] ++ litToks "card" ++ [RTok.opt (litToks "s")],
                         litToks "data",
                         litToks "account" ++ [RTok.opt (litToks "s")],
                         litToks "identit" ++ [RTok.alt [litToks "y", litToks "ies"]]], sp1,
               altLit ["for sale", "available", "selling"], RTok.bnd] }
  , { src := "\\b(?:cp|child\\s*porn|kiddie\\s*porn|preteen|underage)\\s+(?:content|video|link|pic|photo)\\b"
    , toks := [RTok.bnd,
               RTok.alt [litToks "cp", litToks "child" ++ [sp0] ++ litToks "porn",
                         litToks "kiddie" ++ [sp0] ++ litToks "porn",
                         litToks "preteen", litToks "underage"], sp1,
               altLit ["content", "video", "link", "pic", "photo"], RTok.bnd] }
  , { src := "\\b(?:young|underage|minor|child|kid)\\s+(?:nude|naked|nsfw|porn|xxx)\\b"
    , toks := [RTok.bnd, altLit ["young", "underage", "minor", "child", "kid"], sp1,
               altLit ["nude", "naked", "nsfw", "porn", "xxx"], RTok.bnd] }
  , { src := "\\b(?:guaranteed|100%|instant)\\s+(?:profit|returns?|money|income)\\s+(?:daily|weekly|monthly)\\b"
    , toks := [RTok.bnd, altLit ["guaranteed", "100%", "instant"], sp1,
               RTok.alt [litToks "profit", litToks "return" ++ [RTok.opt (litToks "s")],
                         litToks "money", litToks "income"], sp1,
               altLit ["daily", "weekly", "monthly"], RTok.bnd] }
  , { src := "\\b(?:double|triple|10x|100x)\\s+(?:your\\s+)?(?:money|investment|crypto|bitcoin)\\s+(?:in|daily|weekly)\\b"
    , toks := [RTok.bnd, altLit ["double", "triple", "10x", "100x"], sp1,
               RTok.opt (litToks "your" ++ [sp1]),
               altLit ["money", "investment", "crypto", "bitcoin"], sp1,
               altLit ["in", "daily", "weekly"], RTok.bnd] }
  , { src := "(?:send|invest|deposit)\\s+\\d+.*(?:receive|get|earn)\\s+\\d+.*(?:back|profit|return)"
    , toks := [altLit ["send", "invest", "deposit"], sp1, RTok.plus .digit, RTok.star .dot,
               altLit ["receive", "get", "earn"], sp1, RTok.plus .digit, RTok.star .dot,
               altLit ["back", "profit", "return"]] }
  , { src := "(?:private\\s*key|seed\\s*phrase|wallet\\s*backup)\\s+(?:share|send|dm|message)\\s+(?:for|to get)\\b"
    , toks := [RTok.alt [litToks "private" ++ [sp0] ++ litToks "key",
                         litToks "seed" ++ [sp0] ++ litToks "phrase",
                         litToks "wallet" ++ [sp0] ++ litToks "backup"], sp1,
               altLit ["share", "send", "dm", "message"], sp1,
               altLit ["for", "to get"], RTok.bnd] }
  , { src := "\\b(?:trust\\s*wallet|metamask|exodus)\\s+(?:support|verification|security)\\s+(?:help|assist)\\b"
    , toks := [RTok.bnd,
               RTok.alt [litToks "trust" ++ [sp0] ++ litToks "wallet",
                         litToks "metamask", litToks "exodus"], sp1,
               altLit ["support", "verification", "security"], sp1,
               altLit ["help", "assist"], RTok.bnd] }
  , { src := "(?:click|join|use)\\s+(?:my\\s+)?(?:ref|referral|invite)\\s+(?:link|code).*(?:get|earn|receive|bonus)"
    , toks := [altLit ["click", "join", "use"], sp1, RTok.opt (litToks "my" ++ [sp1]),
               altLit ["ref", "referral", "invite"], sp1,
               altLit ["link", "code"], RTok.star .dot,
               altLit ["get", "earn", "receive", "bonus"]] }
  , { src := "t\\.me/\\w+\\?start=\\w\x7b20,\x7d"
    , toks := litToks "t.me/" ++ [RTok.plus .word] ++ litToks "?start=" ++
              List.replicate 20 (RTok.one .word) ++ [RTok.star .word] }
  , { src := "\\b(?:casino|gambling|betting|poker)\\s+(?:guaranteed|100%|sure)\\s+(?:win|profit)\\s+(?:strategy|system)\\b"
    , toks := [RTok.bnd, altLit ["casino", "gambling", "betting", "poker"], sp1,
               altLit ["guaranteed", "100%", "sure"], sp1,
               altLit ["win", "profit"], sp1,
               altLit ["strategy", "system"], RTok.bnd] }
  , { src := "\\b(?:bet|gamble|play)\\s+(?:and\\s+)?(?:win|earn)\\s+(?:guaranteed|easy|big)\\s+(?:money|cash)\\b"
    , toks := [RTok.bnd, altLit ["bet", "gamble", "play"], sp1,
               RTok.opt (litToks "and" ++ [sp1]),
               altLit ["win", "earn"], sp1,
               altLit ["guaranteed", "easy", "big"], sp1,
               altLit ["money", "cash"], RTok.bnd] }
  , { src := "\\b(?:pump|moon|moonshot|100x)\\s+(?:incoming|soon|now|alert|signal)\\s+(?:buy|invest|now)\\b"
    , toks := [RTok.bnd, altLit ["pump", "moon", "moonshot", "100x"], sp1,
               altLit ["incoming", "soon", "now", "alert", "signal"], sp1,
               altLit ["buy", "invest", "now"], RTok.bnd] }
  , { src := "\\b(?:buy\\s+now|load\\s+up|ape\\s+in)\\s+(?:before|pump|moon)\\s+(?:dump|sell)\\b"
    , toks := [RTok.bnd,
               RTok.alt [litToks "buy" ++ [sp1] ++ litToks "now",
                         litToks "load" ++ [sp1] ++ litToks "up",
                         litToks "ape" ++ [sp1] ++ litToks "in"], sp1,
               altLit ["before", "pump", "moon"], sp1,
               altLit ["dump", "sell"], RTok.bnd] }
  ]

/-! ### moderation.py: URLs, whitelist, contextual disambiguation -/

/-- The body character class of the URL regex in `extract_urls`:
`[a-zA-Z]|[0-9]|[$-_@.&+]|[!*\\(\\),]|%hh`.  The `[$-_@.&+]` range 0x24-0x5F
already contains the digits, `@ . & +` and `%`, so the `%hh` alternative
adds nothing to the accepted character set. -/
def urlBodyChar (c : Char) : Bool :=
  isAlphaChar c || isDigitChar c || ('$' ≤ c && c ≤ '_') ||
    c = '!' || c = '*' || c = '\\' || c = '(' || c = ')' || c = ','

/-- `moderation.extract_urls`: `re.findall(r"http[s]?://(...)+", text)`,
leftmost non-overlapping, greedy body (fuel-bounded scan; the fuel of
`extract_urls` always suffices since every step consumes the head). -/
def extractUrlsGo : Nat → List Char → List (List Char)
  | 0, _ => []
  | _, [] => []
  | fuel + 1, c :: rest =>
      if substrAt "https://".data (c :: rest) then
        let body := (rest.drop 7).takeWhile urlBodyChar
        if body ≠ [] then
          ((c :: rest).take 8 ++ body) :: extractUrlsGo fuel ((rest.drop 7).dropWhile urlBodyChar)
        else extractUrlsGo fuel rest
      else if substrAt "http://".data (c :: rest) then
        let body := (rest.drop 6).takeWhile urlBodyChar
        if body ≠ [] then
          ((c :: rest).take 7 ++ body) :: extractUrlsGo fuel ((rest.drop 6).dropWhile urlBodyChar)
        else extractUrlsGo fuel rest
      else extractUrlsGo fuel rest

def extract_urls (text : String) : List String :=
  (extractUrlsGo (text.data.length + 1) text.data).map String.mk

/-- `moderation.check_url_reputation`. -/
def check_url_reputation (url : String) : Bool × String :=
  let urlLower := lowerStr url.data
  match URL_SHORTENERS.find? (fun s => containsSub urlLower s.data) with
  | some s => (true, "Suspicious URL shortener: " ++ s)
  | none =>
      if SCAM_URL_PATTERNS.any (fun p => reSearch p.toks urlLower) then
        (true, "Scam URL pattern detected")
      else (false, "")

/-- `moderation.check_whitelist`. -/
def check_whitelist (text : String) : Bool :=
  let tl := lowerStr text.data
  WHITELIST_PHRASES.any fun p => containsSub tl p.data

/-- The zero-tolerance literals of `check_patterns`. -/
def critical_keywords : List String :=
  ["cp link", "child porn", "underage nudes", "preteen", "kiddie porn"]

/-- Lists of `is_contextual_violation`, in source order. -/
def always_violate : List String :=
  [ "cp link", "child porn", "underage nudes", "preteen", "kiddie porn",
    "cocaine for sale", "heroin for sale", "meth for sale",
    "guns for sale", "weapons for sale", "fake passport",
    "buy cocaine", "buy heroin", "buy meth", "sell cocaine",
    "selling cocaine", "selling heroin", "selling meth" ]

def drug_keywords : List String :=
  ["cocaine", "heroin", "meth", "weed", "marijuana", "fentanyl", "oxy", "xanax", "mdma", "lsd"]

def safe_contexts : List String :=
  [ "drug test", "drug prevention", "drug awareness", "drug education",
    "drug addiction", "drug rehabilitation", "substance abuse",
    "say no to drugs", "drugs are bad", "anti-drug",
    "cocaine is bad", "heroin kills", "meth dangers",
    "addiction recovery", "rehab", "recovery", "treatment", "counseling" ]

def suicide_keywords : List String :=
  ["kys", "kill yourself", "go kill yourself", "you should die"]

def gaming_context : List String :=
  [ "video game", "game", "fortnite", "minecraft", "roblox", "gta", "call of duty",
    "movie", "film", "book", "story", "fiction", "character",
    "comedy", "joke", "satire", "cartoon", "anime", "manga", "novel",
    "play", "theater", "tv show", "series", "npc", "cinematic", "script" ]

def educational_contexts : List String :=
  [ "awareness", "prevention", "safety", "education", "campaign",
    "documentary", "movie", "film", "book", "story", "fiction",
    "comedy", "joke", "satire", "news", "article", "discussion",
    "debate", "analysis", "study", "research", "training",
    "course", "class", "lesson", "tutorial", "guide" ]

def negation_words : List String :=
  [ "against", "anti", "stop", "prevent", "avoid", "bad", "wrong",
    "illegal", "dangerous", "harmful", "addiction", "recovery",
    "rehab", "treatment", "counseling", "help", "support" ]

/-- `moderation.is_contextual_violation`. -/
def is_contextual_violation (textLower : String) (keyword : String) : Bool :=
  let kl := lowerStr keyword.data
  let tl := textLower.data
  if always_violate.any (fun t => containsSub kl t.data) then true
  else if drug_keywords.any (fun d => containsSub kl d.data) then
    ! safe_contexts.any (fun cx => containsSub tl cx.data)
  else if suicide_keywords.any (fun t => containsSub kl t.data) then
    ! gaming_context.any (fun cx => containsSub tl cx.data)
  else if educational_contexts.any (fun cx => containsSub tl cx.data) then false
  else if negation_words.any (fun w => containsSub tl w.data) then false
  else true

/-- Reason and severity `check_patterns` assigns to a `SUSPICIOUS_PATTERNS`
hit, by scanning the regex source text for category terms. -/
def suspiciousVerdict (src : String) : String × String :=
  if ["child", "cp", "underage", "minor"].any (fun t => containsSub src.data t.data) then
    ("CRITICAL: Child exploitation pattern detected", "critical")
  else if ["drug", "weapon", "explosive", "counterfeit"].any (fun t => containsSub src.data t.data) then
    ("Illegal goods/services detected", "high")
  else if ["hack", "steal", "phish", "fraud"].any (fun t => containsSub src.data t.data) then
    ("Hacking/fraud activity detected", "high")
  else ("Suspicious pattern detected (TOS violation)", "medium")

/-- `moderation.check_patterns` (the unused `user_id` parameter is dropped).

The source has two equivalent substring-scanning stages, an Aho-Corasick
fast path used when the `ahocorasick` package is installed and a manual
fallback; we embed the manual fallback branch (`automaton = None`).  Both
run strictly after the whitelist and zero-tolerance stages that the claims
concern. -/
def check_patterns (text : String) : Bool × String × String :=
  if text = "" then (false, "", "low")
  else if check_whitelist text then (false, "", "low")
  else
    let textLower := lowerStr text.data
    let textNoMentions := stripMentionsL textLower
    match critical_keywords.find? (fun kw => containsSub textLower kw.data) with
    | some _ => (true, "CRITICAL: Child exploitation material (zero tolerance)", "critical")
    | none =>
      match SCAM_DOMAINS.find? (fun d => containsSub textLower (lowerStr d.data)) with
      | some d => (true, "Scam link detected: " ++ d, "high")
      | none =>
        match BANNED_KEYWORDS_FLAT.find?
            (fun kw => containsSub textNoMentions (lowerStr kw.data) &&
                       is_contextual_violation (String.mk textNoMentions) kw) with
        | some kw =>
            if ["drug", "weapon", "fake passport"].any
                (fun t => containsSub (lowerStr kw.data) t.data) then
              (true, "Illegal content: " ++ kw, "high")
            else (true, "Prohibited content: " ++ kw, "medium")
        | none =>
          match (extract_urls text).find? (fun u => (check_url_reputation u).1) with
          | some u => (true, (check_url_reputation u).2, "medium")
          | none =>
            match SUSPICIOUS_PATTERNS.find? (fun p => reSearch p.toks (lowerStr text.data)) with
            | some p => (true, (suspiciousVerdict p.src).1, (suspiciousVerdict p.src).2)
            | none => (false, "", "low")

/-! ### moderation.py: classification pipeline

The two optional capabilities (local Toxic-BERT, remote Groq classifier)
are external collaborators; their outputs are passed as parameters, exactly
the data the source reads out of them.  A `none` output models a missing
model / disabled flag / transport error, which the source treats as "no
opinion". -/

/-- First prediction of the local toxicity classifier (`label`, `score`). -/
structure ToxOut where
  label : String
  score : Rat
  deriving Repr, DecidableEq

/-- Percent rendering of `f"{score:.0%}"` (round-half-up model of Python's
float formatting; only reachable inside the toxicity reason string). -/
def pctStr (q : Rat) : String := toString (round (q * 100) : ℤ) ++ "%"

/-- `moderation.check_toxicity`: flag iff the classifier labels the text
`toxic` with confidence at least 0.80; missing classifier output means
`(False, "")`.  (The source's 512-character truncation happens before the
oracle call and is absorbed into the oracle parameter.) -/
def check_toxicity (classifierOut : Option ToxOut) : Bool × String :=
  match classifierOut with
  | none => (false, "")
  | some r =>
      if lowerStr r.label.data = "toxic".data ∧ r.score ≥ 80 / 100 then
        (true, "Toxicity detected (confidence: " ++ pctStr r.score ++ ")")
      else (false, "")

/-- Validated response of `analyze_with_ai` (all four required fields
present; a malformed or failed response is `none` at the call site). -/
structure AiVerdict where
  verdict : String
  confidence : Rat
  reason : String
  severity : String
  deriving Repr, DecidableEq

/-- `moderation.check_message`: the layered pipeline.  `aiEnabled` models
`ENABLE_AI_MODERATION and GROQ_API_KEY`; `ai` models the value returned by
`await analyze_with_ai(text)`.  Result: (should_remove, reason, severity,
is_vouch). -/
def check_message (text : String) (tox : Option ToxOut) (aiEnabled : Bool)
    (ai : Option AiVerdict) : Bool × String × String × Bool :=
  let message_is_vouch := is_vouch text
  let pat := check_patterns text
  if pat.1 then (true, pat.2.1, pat.2.2, message_is_vouch)
  else
    let toxr := check_toxicity tox
    if toxr.1 then (true, toxr.2, "high", message_is_vouch)
    else if aiEnabled then
      match ai with
      | some a =>
          if a.verdict = "VIOLATION" then
            if a.severity = "critical" then
              (true, "AI CRITICAL: " ++ a.reason, "critical", message_is_vouch)
            else if a.severity = "high" ∧ a.confidence ≥ 70 / 100 then
              (true, "AI detected: " ++ a.reason, "high", message_is_vouch)
            else if a.severity = "medium" ∧ a.confidence ≥ 75 / 100 then
              (true, "AI detected: " ++ a.reason, "medium", message_is_vouch)
            else if a.severity = "low" ∧ a.confidence ≥ 80 / 100 then
              (true, "AI detected: " ++ a.reason, "low", message_is_vouch)
            else (false, "", "low", message_is_vouch)
          else (false, "", "low", message_is_vouch)
      | none => (false, "", "low", message_is_vouch)
    else (false, "", "low", message_is_vouch)

/-! ### moderation.py: vouch extraction and canonical form -/

/-- `is_vouch_info` mention class: `@[_a-zA-Z0-9-]+`. -/
def isVouchMentionChar (c : Char) : Bool :=
  c = '_' || isAlphaChar c || isDigitChar c || c = '-'

/-- `re.findall(r"@[_a-zA-Z0-9-]+", txt)` — full matches, `@` included
(fuel-bounded scan, every step consumes at least the head). -/
def extractVouchMentionsGo : Nat → List Char → List (List Char)
  | 0, _ => []
  | _, [] => []
  | fuel + 1, c :: rest =>
      if c = '@' && rest.takeWhile isVouchMentionChar ≠ [] then
        ('@' :: rest.takeWhile isVouchMentionChar) ::
          extractVouchMentionsGo fuel (rest.dropWhile isVouchMentionChar)
      else extractVouchMentionsGo fuel rest

def extractVouchMentionsL (s : List Char) : List (List Char) :=
  extractVouchMentionsGo (s.length + 1) s

/-- `negative_keywords` of `extract_vouch_info`, in source order. -/
def negative_keywords : List String :=
  [ "neg vouch", "negative vouch", "-vouch", "-rep", "scammer", "scam",
    "do not recommend", "dont recommend", "don" ++ apos ++ "t recommend",
    "not recommend", "no vouch", "never vouch", "dont trust",
    "don" ++ apos ++ "t trust", "not legit", "fraud", "fake", "unreliable", "vouch against" ]

/-- `positive_keywords` of `extract_vouch_info` (defined by the source but
not consulted by the polarity rule: negative cues win, default positive). -/
def positive_keywords : List String :=
  [ "pos vouch", "positive vouch", "+vouch", "+rep", "+1",
    "vouch", "solid", "legend", "legit", "trusted", "trustworthy",
    "recommend", "good seller", "good buyer", "can vouch", "reliable" ]

/-- `re.sub(r"https?://[^\s)]*", "[LINK]", txt)` (fuel-bounded scan). -/
def isUrlTailChar (c : Char) : Bool := ! (isSpaceChar c || c = ')')

def subUrlsGo : Nat → List Char → List Char
  | 0, s => s
  | _, [] => []
  | fuel + 1, c :: rest =>
      if substrAt "https://".data (c :: rest) then
        "[LINK]".data ++ subUrlsGo fuel ((rest.drop 7).dropWhile isUrlTailChar)
      else if substrAt "http://".data (c :: rest) then
        "[LINK]".data ++ subUrlsGo fuel ((rest.drop 6).dropWhile isUrlTailChar)
      else c :: subUrlsGo fuel rest

def subUrlsLink (s : List Char) : List Char := subUrlsGo (s.length + 1) s

/-- The structured result of `extract_vouch_info` (a dict in the source;
`watchers` is the optional key added later by the vouch services). -/
structure VouchInfo where
  from_username : String
  to_username : String
  polarity : String
  excerpt : String
  watchers : List String := []
  deriving Repr, DecidableEq

/-- `moderation.extract_vouch_info`. -/
def extract_vouch_info (text : String) (from_username : Option String) :
    Option VouchInfo :=
  if text = "" || text.length < 5 then none
  else
    let txt := stripWs text.data
    let txtLower := lowerStr txt
    if is_vouch_request (String.mk txtLower) then none
    else
      match (extractVouchMentionsL txt).map String.mk with
      | [] => none
      | m0 :: rest =>
        let mentions := m0 :: rest
        let polarity :=
          if negative_keywords.any (fun kw => containsSub txtLower kw.data) then "neg" else "pos"
        -- Python truthiness: an empty author handle behaves like None.
        let fuOpt : Option String :=
          match from_username with
          | some fu => if fu = "" then none else some fu
          | none => none
        let to_username :=
          match fuOpt with
          | some fu =>
            let fromNorm := lowerStr (lstripAt fu.data)
            (mentions.find? fun m => lowerStr (lstripAt m.data) ≠ fromNorm).getD m0
          | none => m0
        let excerpt0 := stripWs (collapseWs (subUrlsLink txt))
        let excerpt :=
          if 200 < excerpt0.length then excerpt0.take 197 ++ "...".data else excerpt0
        some { from_username :=
                 match fuOpt with
                 | some fu => String.mk ('@' :: lstripAt fu.data)
                 | none => ""
             , to_username := to_username
             , polarity := polarity
             , excerpt := String.mk excerpt }

/-! ### moderation.py: canonical vouch text -/

/-- Case-insensitive literal prefix eater (for `_VOUCH_PREFIX_PATTERN`,
which carries `re.IGNORECASE`). -/
def eatLitCI (pat : List Char) : List Char → Option (List Char)
  | s =>
      if (s.take pat.length).map lowerChar = pat then some (s.drop pat.length) else none

/-- Eat `\s+` greedily. -/
def eatSpaces1 : List Char → Option (List Char)
  | c :: rest => if isSpaceChar c then some (rest.dropWhile isSpaceChar) else none
  | [] => none

/-- One repetition of `_VOUCH_PREFIX_PATTERN`'s alternation
`(?:\+|-)?rep\s+ | (?:pos(?:itive)?|neg(?:ative)?)\s+vouch\s+ |
vouch\s+(?:for\s+)? | vouched\s+`, with the regex's backtracking order. -/
def vouchPfxOnce (s : List Char) : Option (List Char) :=
  let a1 :=
    let s1 := match s with
      | '+' :: r => r
      | '-' :: r => r
      | _ => s
    (eatLitCI "rep".data s1).bind eatSpaces1
  let a2core := fun r =>
    (eatSpaces1 r).bind fun r2 => (eatLitCI "vouch".data r2).bind eatSpaces1
  let a2 :=
    match (eatLitCI "positive".data s).bind a2core with
    | some r => some r
    | none =>
      match (eatLitCI "pos".data s).bind a2core with
      | some r => some r
      | none =>
        match (eatLitCI "negative".data s).bind a2core with
        | some r => some r
        | none => (eatLitCI "neg".data s).bind a2core
  let a3 :=
    (eatLitCI "vouch".data s).bind fun r =>
      (eatSpaces1 r).bind fun r2 =>
        match (eatLitCI "for".data r2).bind eatSpaces1 with
        | some r3 => some r3
        | none => some r2
  let a4 := (eatLitCI "vouched".data s).bind eatSpaces1
  match a1 with
  | some r => some r
  | none => match a2 with
    | some r => some r
    | none => match a3 with
      | some r => some r
      | none => a4

def vouchPfxGo : Nat → List Char → List Char
  | 0, s => s
  | fuel + 1, s =>
      match vouchPfxOnce s with
      | some r => vouchPfxGo fuel r
      | none => s

/-- `_VOUCH_PREFIX_PATTERN.sub("", s)` (the pattern is anchored at the
start, so the sub strips the greedy `(alternation)+` prefix). -/
def stripVouchPfx (s : List Char) : List Char := vouchPfxGo (s.length + 1) s

/-- `re.sub(r"^@[\w\d_]+\s*", "", s)`. -/
def stripLeadMention (s : List Char) : List Char :=
  match s with
  | '@' :: rest =>
      if rest.takeWhile isWordChar ≠ [] then
        (rest.dropWhile isWordChar).dropWhile isSpaceChar
      else s
  | _ => s

/-- `str.strip(" -:")`. -/
def stripDashColon (s : List Char) : List Char :=
  let p := fun c => c = ' ' || c = '-' || c = ':'
  ((s.dropWhile p).reverse.dropWhile p).reverse

/-- `moderation._clean_note_excerpt`. -/
def clean_note_excerpt (excerpt : String) : String :=
  if excerpt = "" then ""
  else
    let c1 := stripWs excerpt.data
    let c2 := stripWs (stripVouchPfx c1)
    let c3 := stripLeadMention c2
    String.mk (stripDashColon c3)

/-- `moderation.format_canonical_vouch`. -/
def format_canonical_vouch (vi : VouchInfo) : String :=
  let frm := if vi.from_username = "" then "[unknown]" else vi.from_username
  let toU := if vi.to_username = "" then "[unknown]" else vi.to_username
  let excerpt := String.mk (stripWs vi.excerpt.data)
  let pol := if vi.polarity = "" then "pos" else vi.polarity
  let title := if pol = "pos" then "POS VOUCH" else "NEG VOUCH"
  let lines := [title ++ " " ++ toU, "from: " ++ frm]
  let note := clean_note_excerpt excerpt
  let lines := if note = "" then lines else lines ++ [note]
  let lines :=
    if vi.watchers = [] then lines
    else lines ++ ["Last to vouch: " ++ String.intercalate ", " vi.watchers]
  String.intercalate "\n" lines

/-! ### vouch_db.py: the vouch ledger

The `vouches` table is a list of rows (insertion order = rowid order); SQL
`NULL` is `none`.  `REAL` timestamps are `Rat` and the current time is an
explicit parameter.  Storage-layer failure (the `try/except` wrapping of
every operation) is modelled by the `*_safe` wrappers further down, whose
`conn` parameter is `none` when `get_db_connection` raises. -/

structure VouchRow where
  from_user_id : Int
  from_username : Option String
  from_display_name : Option String
  from_username_lower : Option String
  from_display_name_lower : Option String
  to_user_id : Option Int
  to_username : Option String
  to_display_name : Option String
  to_username_lower : Option String
  to_display_name_lower : Option String
  polarity : String
  original_text : String
  canonical_text : String
  chat_id : Int
  message_id : Option Int
  is_sanitized : Bool
  timestamp : Rat
  created_at : String
  deriving Repr, DecidableEq

/-- `vouch_db._normalize_for_index`: lowered, `None` for empty or missing. -/
def normalize_for_index : Option String → Option String
  | none => none
  | some s => if s = "" then none else some (String.mk (lowerStr s.data))

/-- SQL `=` on nullable text columns: never true when either side is NULL. -/
def sqlEqStr : Option String → Option String → Bool
  | some a, some b => a = b
  | _, _ => false

/-- `vouch_db.check_vouch_duplicate_24h`: any row by the same author, for
the same normalized target, with the same polarity, with
`timestamp > now - 86400`.  (A NULL/empty target matches no row, per SQL
`=` semantics on the NULL parameter.) -/
def check_vouch_duplicate_24h (from_user_id : Int) (to_username : Option String)
    (polarity : String) (now : Rat) (db : List VouchRow) : Bool :=
  db.any fun r =>
    decide (r.from_user_id = from_user_id) &&
    sqlEqStr r.to_username_lower (normalize_for_index to_username) &&
    decide (r.polarity = polarity) &&
    decide (r.timestamp > now - 86400)

/-- Stable descending-timestamp sort (`ORDER BY timestamp DESC`; SQLite
leaves tie order unspecified, we keep insertion order). -/
def insertDescByTime (x : VouchRow) : List VouchRow → List VouchRow
  | [] => [x]
  | y :: ys => if y.timestamp > x.timestamp then y :: insertDescByTime x ys else x :: y :: ys

def sortDescByTime : List VouchRow → List VouchRow
  | [] => []
  | x :: xs => insertDescByTime x (sortDescByTime xs)

/-- Projection returned by `get_prior_vouchers_for_target`. -/
structure PriorVoucher where
  from_username : Option String
  from_display_name : Option String
  timestamp : Rat
  deriving Repr, DecidableEq

/-- `vouch_db.get_prior_vouchers_for_target`. -/
def get_prior_vouchers_for_target (to_username : Option String) (polarity : String)
    (limit : Nat) (db : List VouchRow) : List PriorVoucher :=
  ((sortDescByTime (db.filter fun r =>
      sqlEqStr r.to_username_lower (normalize_for_index to_username) &&
      decide (r.polarity = polarity))).take limit).map
    fun r => ⟨r.from_username, r.from_display_name, r.timestamp⟩

/-- Arguments of `vouch_db.store_vouch`, field for field. -/
structure StoreArgs where
  from_user_id : Int
  from_username : Option String
  from_display_name : Option String
  to_user_id : Option Int
  to_username : Option String
  to_display_name : Option String
  polarity : String
  original_text : String
  canonical_text : String
  chat_id : Int
  message_id : Option Int := none
  is_sanitized : Bool := false
  deriving Repr, DecidableEq

/-- The duplicate check of `store_vouch` on (chat, author, original text,
lowered target).  The source issues `to_username_lower = ?` when the
normalized target is truthy and `to_username_lower IS NULL` otherwise; both
branches together are exactly `Option` equality with the normalized
target. -/
def storeDupCheck (a : StoreArgs) (r : VouchRow) : Bool :=
  decide (r.chat_id = a.chat_id) &&
  decide (r.from_user_id = a.from_user_id) &&
  decide (r.original_text = a.original_text) &&
  decide (r.to_username_lower = normalize_for_index a.to_username)

/-- The row `store_vouch` inserts. -/
def storeRow (a : StoreArgs) (now : Rat) (createdAt : String) : VouchRow :=
  { from_user_id := a.from_user_id
  , from_username := a.from_username
  , from_display_name := a.from_display_name
  , from_username_lower := normalize_for_index a.from_username
  , from_display_name_lower := normalize_for_index a.from_display_name
  , to_user_id := a.to_user_id
  , to_username := a.to_username
  , to_display_name := a.to_display_name
  , to_username_lower := normalize_for_index a.to_username
  , to_display_name_lower := normalize_for_index a.to_display_name
  , polarity := a.polarity
  , original_text := a.original_text
  , canonical_text := a.canonical_text
  , chat_id := a.chat_id
  , message_id := a.message_id
  , is_sanitized := a.is_sanitized
  , timestamp := now
  , created_at := createdAt }

/-- `vouch_db.store_vouch`: duplicate check first (silent `False` on
repeat), then insert; returns whether a row was stored and the new table. -/
def store_vouch (a : StoreArgs) (now : Rat) (createdAt : String)
    (db : List VouchRow) : Bool × List VouchRow :=
  if db.any (storeDupCheck a) then (false, db)
  else (true, db ++ [storeRow a now createdAt])

/-- Rows of the append-only `username_history` table. -/
structure UsernameHistRow where
  user_id : Int
  username_lower : String
  deriving Repr, DecidableEq

/-- The persistent ledger state touched by `resolve_username`. -/
structure LedgerDb where
  vouches : List VouchRow
  username_history : List UsernameHistRow
  deriving Repr, DecidableEq

/-- The row condition of `update_vouches_with_resolved_user_id`:
`(to_username_lower = norm OR (to_username_lower IS NULL AND
LOWER(to_username) = norm)) AND (chat filter) AND (to_user_id IS NULL OR
to_user_id = 0)`. -/
def resolveCond (chatFilter : Option Int) (norm : String) (r : VouchRow) : Bool :=
  (decide (r.to_username_lower = some norm) ||
    (decide (r.to_username_lower = none) &&
      match r.to_username with
      | some u => decide (String.mk (lowerStr u.data) = norm)
      | none => false)) &&
  (match chatFilter with
   | none => true
   | some c => decide (r.chat_id = c)) &&
  (decide (r.to_user_id = none) || decide (r.to_user_id = some 0))

/-- The `SET to_user_id = ?` update on one row, guarded by the row
condition. -/
def resolveApply (chatFilter : Option Int) (norm : String) (user_id : Int)
    (r : VouchRow) : VouchRow :=
  if resolveCond chatFilter norm r then { r with to_user_id := some user_id } else r

/-- `vouch_db.update_vouches_with_resolved_user_id`: backfill `to_user_id`
on unresolved rows targeting the username, then record the mapping in
`username_history`; returns the number of rows updated. -/
def update_vouches_with_resolved_user_id (chat_id : Option Int) (username : String)
    (user_id : Int) (db : LedgerDb) : Nat × LedgerDb :=
  if username = "" then (0, db)
  else
    let norm := String.mk (lowerStr (lstripAt username.data))
    let updated := (db.vouches.filter (resolveCond chat_id norm)).length
    let vouches' := db.vouches.map (resolveApply chat_id norm user_id)
    (updated, { vouches := vouches'
              , username_history := db.username_history ++ [⟨user_id, norm⟩] })

/-- SQL `LIKE '%q%'` against a nullable lowered column (a NULL column never
matches; SQL wildcard characters inside the query are not modelled since no
claim involves them). -/
def likeContains (col : Option String) (pat : List Char) : Bool :=
  match col with
  | none => false
  | some s => containsSub s.data pat

/-- `vouch_db.search_vouches`: case-insensitive substring match over the
four lowered columns, optional chat / polarity filters (Python truthiness:
chat 0 and empty polarity disable the filter), newest first, limited. -/
def search_vouches (query : String) (chat_id : Option Int) (polarity : Option String)
    (limit : Nat) (db : List VouchRow) : List VouchRow :=
  let cleanQuery := lowerStr (lstripAt (stripWs query.data))
  let rows := db.filter fun r =>
    (likeContains r.from_username_lower cleanQuery ||
     likeContains r.to_username_lower cleanQuery ||
     likeContains r.from_display_name_lower cleanQuery ||
     likeContains r.to_display_name_lower cleanQuery) &&
    (match chat_id with
     | some c => if c ≠ 0 then decide (r.chat_id = c) else true
     | none => true) &&
    (match polarity with
     | some p => if p ≠ "" then decide (r.polarity = p) else true
     | none => true)
  (sortDescByTime rows).take limit

/-! ### vouch_db.py: failure semantics

Every public ledger operation wraps its body in `try/except`; when the
storage layer raises (modelled by `conn = none`) the operation logs and
returns its safe sentinel instead of propagating.  `store_vouch` returns
`False`, `search_vouches` returns `[]`, `check_vouch_duplicate_24h` fails
open to `False`, `update_vouches_with_resolved_user_id` returns `0`. -/

def store_vouch_safe (conn : Option (List VouchRow)) (a : StoreArgs) (now : Rat)
    (createdAt : String) : Bool × Option (List VouchRow) :=
  match conn with
  | none => (false, none)
  | some db =>
      let r := store_vouch a now createdAt db
      (r.1, some r.2)

def search_vouches_safe (conn : Option (List VouchRow)) (query : String)
    (chat_id : Option Int) (polarity : Option String) (limit : Nat) : List VouchRow :=
  match conn with
  | none => []
  | some db => search_vouches query chat_id polarity limit db

def check_vouch_duplicate_24h_safe (conn : Option (List VouchRow)) (from_user_id : Int)
    (to_username : Option String) (polarity : String) (now : Rat) : Bool :=
  match conn with
  | none => false
  | some db => check_vouch_duplicate_24h from_user_id to_username polarity now db

def update_vouches_with_resolved_user_id_safe (conn : Option LedgerDb)
    (chat_id : Option Int) (username : String) (user_id : Int) :
    Nat × Option LedgerDb :=
  match conn with
  | none => (0, none)
  | some db =>
      let r := update_vouches_with_resolved_user_id chat_id username user_id db
      (r.1, some r.2)

/-! ### modbot/services/vouches.py: clean-vouch routing

The chat transport is modelled by an effect trace: `deleteOriginal` is
`message.delete()` on the incoming message, `postCanonical` is
`chat.send_message(canonical)` (the transport assigns `nextMsgId`),
`tempAck` is `_send_temp_ack` (its inner send plus the fire-and-forget
delayed self-delete are one acknowledgment effect).  Transport calls are
modelled as succeeding; the source swallows their failures. -/

inductive Effect where
  | deleteOriginal : Int → Effect
  | postCanonical : Int → String → Int → Effect
  | tempAck : Int → String → Option Int → Effect
  deriving Repr, DecidableEq

/-- The narrow view of an incoming transport message that the service
reads: text, chat id, message id, sender id, sender first name. -/
structure MsgIn where
  text : String
  chat_id : Int
  message_id : Int
  from_user_id : Int
  from_first_name : Option String
  deriving Repr, DecidableEq

structure World where
  db : List VouchRow
  effects : List Effect
  nextMsgId : Int
  now : Rat
  nowIso : String
  deriving Repr, DecidableEq

/-- `vouches._collect_target_usernames`: mentioned usernames, author
excluded, de-duplicated case-insensitively preserving first-seen order. -/
def collectGo (fromNorm : List Char) : List String → List (List Char) → List String
  | [], _ => []
  | m :: ms, seen =>
      let norm := lowerStr m.data
      if norm = fromNorm || decide (norm ∈ seen) then collectGo fromNorm ms seen
      else m :: collectGo fromNorm ms (norm :: seen)

def collect_target_usernames (text : String) (from_username : Option String) : List String :=
  let mentions := extract_mentions text
  if mentions = [] then []
  else collectGo (lowerStr (lstripAt (from_username.getD "").data)) mentions []

/-- `vouches._format_prior_watchers`: up to five distinct tags of prior
positive vouchers for the target ("@username", else display name). -/
def watchersGo : List PriorVoucher → List String → Nat → List String
  | _, _, 0 => []
  | [], _, _ => []
  | w :: ws, seen, n + 1 =>
      let tag : Option String :=
        match w.from_username with
        | some u => if u ≠ "" then some ("@" ++ u) else
            match w.from_display_name with
            | some d => if d ≠ "" then some d else none
            | none => none
        | none =>
            match w.from_display_name with
            | some d => if d ≠ "" then some d else none
            | none => none
      match tag with
      | none => watchersGo ws seen (n + 1)
      | some t =>
          if decide (t ∈ seen) then watchersGo ws seen (n + 1)
          else t :: watchersGo ws (t :: seen) n

def format_prior_watchers (target_username : String) (db : List VouchRow) : List String :=
  watchersGo (get_prior_vouchers_for_target (some target_username) "pos" 5 db) [] 5

/-- One iteration of the `store_vouch` loop of `handle_clean_vouch`. -/
def cleanStoreArgs (m : MsgIn) (from_username : Option String) (polarity : String)
    (sentId : Int) (tc : String × String) : StoreArgs :=
  { from_user_id := m.from_user_id
  , from_username := some (from_username.getD "")
  , from_display_name := m.from_first_name
  , to_user_id := none
  , to_username := some tc.1
  , to_display_name := none
  , polarity := polarity
  , original_text := m.text
  , canonical_text := tc.2
  , chat_id := m.chat_id
  , message_id := some sentId
  , is_sanitized := false }

/-- The canonical entry `handle_clean_vouch` builds for one non-duplicate
target: the target name and its canonical vouch text (with prior positive
vouchers attached for negative vouches). -/
def cleanEntry (vinfo : VouchInfo) (polarity : String) (db : List VouchRow)
    (t : String) : String × String :=
  let watchers := if polarity = "neg" then format_prior_watchers t db else []
  (t, format_canonical_vouch { vinfo with to_username := "@" ++ t, watchers := watchers })

/-- `vouches.handle_clean_vouch`: extract, collect targets, drop 24h
duplicates, then delete the original message, post one canonical repost,
store one row per remaining target, and send one acknowledgment. -/
def handle_clean_vouch (m : MsgIn) (from_username : Option String) (w : World) : World :=
  match extract_vouch_info m.text from_username with
  | none => w
  | some vinfo =>
    let targets := collect_target_usernames m.text from_username
    if targets = [] then w
    else
      let polarity := vinfo.polarity
      let entries := targets.filterMap fun t =>
        if check_vouch_duplicate_24h m.from_user_id (some t) polarity w.now w.db then none
        else some (cleanEntry vinfo polarity w.db t)
      if entries = [] then
        { w with effects := w.effects ++
            [Effect.deleteOriginal m.message_id,
             Effect.tempAck m.chat_id "[INFO] Already vouched within the last 24h." none] }
      else
        let sentId := w.nextMsgId
        let canonicalMsg := String.intercalate "\n\n" (entries.map Prod.snd)
        let db' := entries.foldl
          (fun d tc => (store_vouch (cleanStoreArgs m from_username polarity sentId tc)
                          w.now w.nowIso d).2) w.db
        { db := db'
        , effects := w.effects ++
            [Effect.deleteOriginal m.message_id,
             Effect.postCanonical m.chat_id canonicalMsg sentId,
             Effect.tempAck m.chat_id "[OK] Thank you. Vouch logged and printed." (some sentId)]
        , nextMsgId := w.nextMsgId + 1
        , now := w.now
        , nowIso := w.nowIso }

/-! ## Theorems for the claims -/

/-- C7: for every text `t` that matches a vouch-request pattern (as
`is_vouch` tests it, on the lowered text), `is_vouch t` is false, even when
`t` also contains vouch vocabulary and an `@` mention — the request check
runs before the composite keyword+mention pattern. -/
theorem vouch_request_excludes_is_vouch (t : String)
    (h : is_vouch_request (String.mk (lowerStr t.data)) = true) :
    is_vouch t = false := by
  unfold is_vouch
  split
  · rfl
  · simp [h]

theorem vouch_request_excludes_is_vouch_witness :
    is_vouch_request (String.mk (lowerStr "can anyone vouch for @bob?".data)) = true ∧
    is_vouch "can anyone vouch for @bob?" = false :=
  ⟨by decide, vouch_request_excludes_is_vouch _ (by decide)⟩

/-- C9: every modelled ledger operation is total with respect to
storage-layer errors: when the connection layer raises (`conn = none`), no
exception escapes; `store_vouch` returns the failure sentinel `false` with
the store untouched, `search_vouches` returns `[]`,
`check_vouch_duplicate_24h` fails open to `false`, and
`update_vouches_with_resolved_user_id` reports `0` rows updated. -/
theorem ledger_total_on_storage_error (a : StoreArgs) (now : Rat) (iso : String)
    (q : String) (c : Option Int) (p : Option String) (lim : Nat)
    (fid : Int) (tu : Option String) (pol : String) (u : String) (uid : Int) :
    store_vouch_safe none a now iso = (false, none) ∧
    search_vouches_safe none q c p lim = [] ∧
    check_vouch_duplicate_24h_safe none fid tu pol now = false ∧
    update_vouches_with_resolved_user_id_safe none c u uid = (0, none) :=
  ⟨rfl, rfl, rfl, rfl⟩

/-- Relation required by C10 between a stored source field and its
normalized index column: the lowered column is the lower-casing of the
source when the source is a non-empty string, and NULL when the source is
empty or absent. -/
def loweredColMatches (src low : Option String) : Prop :=
  ((src = none ∨ src = some "") ∧ low = none) ∨
    ∃ s, src = some s ∧ s ≠ "" ∧ low = some (String.mk (lowerStr s.data))

theorem loweredColMatches_normalize (src : Option String) :
    loweredColMatches src (normalize_for_index src) := by
  unfold loweredColMatches normalize_for_index
  match src with
  | none => exact Or.inl ⟨Or.inl rfl, rfl⟩
  | some s =>
      by_cases h : s = ""
      · exact Or.inl ⟨Or.inr (by rw [h]), by simp [h]⟩
      · exact Or.inr ⟨s, rfl, h, by simp [h]⟩

/-- C10: every row actually inserted by `store_vouch` is appended at the
end and keeps its normalized index columns consistent with their source
fields: each of the four `*_lower` columns is the lower-casing of the
corresponding stored source field when that field is non-empty, and NULL
when the source is empty or absent. -/
theorem store_vouch_normalized_columns (a : StoreArgs) (now : Rat) (iso : String)
    (db : List VouchRow) (h : (store_vouch a now iso db).1 = true) :
    ∃ r, (store_vouch a now iso db).2 = db ++ [r] ∧
      r.from_username = a.from_username ∧
      r.to_username = a.to_username ∧
      r.from_display_name = a.from_display_name ∧
      r.to_display_name = a.to_display_name ∧
      loweredColMatches r.from_username r.from_username_lower ∧
      loweredColMatches r.to_username r.to_username_lower ∧
      loweredColMatches r.from_display_name r.from_display_name_lower ∧
      loweredColMatches r.to_display_name r.to_display_name_lower := by
  unfold store_vouch at h ⊢
  by_cases hd : db.any (storeDupCheck a) = true
  · simp [hd] at h
  · simp only [hd, Bool.false_eq_true, if_neg, ite_false]
    refine ⟨storeRow a now iso, rfl, rfl, rfl, rfl, rfl, ?_, ?_, ?_, ?_⟩ <;>
      exact loweredColMatches_normalize _

/-! C1: `check_patterns` runs the allow-list check before the
zero-tolerance stage, so a text containing both an allow-listed educational
phrase and a zero-tolerance critical phrase is reported clean — the
allow-list wins, contrary to the claim. -/

/-- C1 counterexample: "drug awareness cp link" contains the zero-tolerance
phrase "cp link", yet `check_patterns` returns no violation (severity
`low`) because the allow-listed phrase "drug awareness" is checked first. -/
theorem whitelist_overrides_critical_counterexample :
    containsSub (lowerStr "drug awareness cp link".data) "cp link".data = true ∧
    check_whitelist "drug awareness cp link" = true ∧
    check_patterns "drug awareness cp link" = (false, "", "low") := by
  decide

/-- C1 amended: for every non-empty text that contains a zero-tolerance
critical phrase and does NOT contain any allow-listed phrase,
`check_patterns` returns a violation with severity `critical` (the
allow-list check runs first and wins whenever it matches). -/
theorem check_patterns_critical_unless_whitelisted (t : String) (hne : t ≠ "")
    (hwl : check_whitelist t = false)
    (hcrit : critical_keywords.any (fun kw => containsSub (lowerStr t.data) kw.data) = true) :
    check_patterns t =
      (true, "CRITICAL: Child exploitation material (zero tolerance)", "critical") := by
  obtain ⟨kw, hfind⟩ : ∃ kw,
      critical_keywords.find? (fun kw => containsSub (lowerStr t.data) kw.data) = some kw := by
    rw [List.any_eq_true] at hcrit
    obtain ⟨x, hx, hpx⟩ := hcrit
    have : (critical_keywords.find?
        (fun kw => containsSub (lowerStr t.data) kw.data)).isSome := by
      rw [List.find?_isSome]
      exact ⟨x, hx, hpx⟩
    exact Option.isSome_iff_exists.mp this
  unfold check_patterns
  rw [if_neg hne, if_neg (by simp [hwl])]
  simp only [hfind]

theorem check_patterns_critical_unless_whitelisted_witness :
    check_patterns "cp link here" =
      (true, "CRITICAL: Child exploitation material (zero tolerance)", "critical") :=
  check_patterns_critical_unless_whitelisted "cp link here" (by decide) (by decide) (by decide)

theorem sqlEqStr_some_iff (o : Option String) (s : String) :
    sqlEqStr o (some s) = true ↔ o = some s := by
  cases o <;> simp [sqlEqStr]

/-- C6: `check_vouch_duplicate_24h(author, target, polarity)` returns true
iff some stored vouch has the same author id, its lowered target column
equal to the lower-cased target handle, the same polarity, and a timestamp
within the last 86400 seconds of the current time. -/
theorem check_recent_duplicate_iff (a : Int) (h p : String) (now : Rat)
    (db : List VouchRow) (hne : h ≠ "") :
    check_vouch_duplicate_24h a (some h) p now db = true ↔
      ∃ r ∈ db, r.from_user_id = a ∧
        r.to_username_lower = some (String.mk (lowerStr h.data)) ∧
        r.polarity = p ∧ now - r.timestamp < 86400 := by
  unfold check_vouch_duplicate_24h
  rw [List.any_eq_true]
  apply exists_congr
  intro r
  simp only [normalize_for_index, hne, if_neg, ite_false, Bool.and_eq_true,
    decide_eq_true_eq, sqlEqStr_some_iff, gt_iff_lt, sub_lt_comm]
  tauto

def c6row : VouchRow :=
  { from_user_id := 4, from_username := some "eve", from_display_name := none
  , from_username_lower := some "eve", from_display_name_lower := none
  , to_user_id := none, to_username := some "Bob", to_display_name := none
  , to_username_lower := some "bob", to_display_name_lower := none
  , polarity := "pos", original_text := "vouch @Bob", canonical_text := "c"
  , chat_id := 9, message_id := some 2, is_sanitized := false
  , timestamp := 999000, created_at := "t" }

theorem check_recent_duplicate_iff_witness :
    check_vouch_duplicate_24h 4 (some "Bob") "pos" 1000000 [c6row] = true ↔
      ∃ r ∈ [c6row], r.from_user_id = 4 ∧
        r.to_username_lower = some (String.mk (lowerStr "Bob".data)) ∧
        r.polarity = "pos" ∧ (1000000 : Rat) - r.timestamp < 86400 :=
  check_recent_duplicate_iff 4 "Bob" "pos" 1000000 [c6row] (by decide)

theorem zip_map_self {α β : Type} (g : α → β) (l : List α) :
    l.zip (l.map g) = l.map fun r => (r, g r) := by
  induction l with
  | nil => rfl
  | cons x xs ih => rw [List.map_cons, List.zip_cons_cons, ih, List.map_cons]

theorem resolveApply_idem (c : Option Int) (norm : String) (uid : Int) (r : VouchRow) :
    resolveApply c norm uid (resolveApply c norm uid r) = resolveApply c norm uid r := by
  by_cases h : resolveCond c norm r = true
  · by_cases h2 : resolveCond c norm { r with to_user_id := some uid } = true <;>
      simp [resolveApply, h, h2]
  · simp [resolveApply, h]

/-- C8: after `resolve_username(chat, username, user_id)` (with a non-empty
username), every previously stored vouch row in that chat that matched the
lowered username and was unresolved (`to_user_id` NULL or 0) now carries
`to_user_id = user_id` (rows are compared position-wise via `zip`); the
username-to-id mapping has been recorded in `username_history`; and calling
the operation again with the same arguments changes no vouch row. -/
theorem resolve_username_backfills (c : Int) (username : String) (uid : Int)
    (db : LedgerDb) (hu : username ≠ "") :
    (∀ p ∈ db.vouches.zip
        (update_vouches_with_resolved_user_id (some c) username uid db).2.vouches,
        resolveCond (some c) (String.mk (lowerStr (lstripAt username.data))) p.1 = true →
          p.2.to_user_id = some uid) ∧
    (⟨uid, String.mk (lowerStr (lstripAt username.data))⟩ : UsernameHistRow) ∈
      (update_vouches_with_resolved_user_id (some c) username uid db).2.username_history ∧
    (update_vouches_with_resolved_user_id (some c) username uid
        (update_vouches_with_resolved_user_id (some c) username uid db).2).2.vouches =
      (update_vouches_with_resolved_user_id (some c) username uid db).2.vouches := by
  have hout : (update_vouches_with_resolved_user_id (some c) username uid db).2 =
      { vouches := db.vouches.map
          (resolveApply (some c) (String.mk (lowerStr (lstripAt username.data))) uid)
      , username_history := db.username_history ++
          [⟨uid, String.mk (lowerStr (lstripAt username.data))⟩] } := by
    unfold update_vouches_with_resolved_user_id
    rw [if_neg hu]
  refine ⟨?_, ?_, ?_⟩
  · intro p hp hcond
    rw [hout] at hp
    simp only [zip_map_self, List.mem_map] at hp
    obtain ⟨r, _, hpr⟩ := hp
    rw [← hpr] at hcond ⊢
    simp only [resolveApply, hcond, if_pos]
  · rw [hout]
    simp
  · rw [hout]
    unfold update_vouches_with_resolved_user_id
    rw [if_neg hu]
    simp only [List.map_map]
    apply List.map_congr_left
    intro r _
    exact resolveApply_idem _ _ _ r

def c8row : VouchRow :=
  { from_user_id := 2, from_username := some "dan", from_display_name := none
  , from_username_lower := some "dan", from_display_name_lower := none
  , to_user_id := none, to_username := some "Alice", to_display_name := none
  , to_username_lower := some "alice", to_display_name_lower := none
  , polarity := "pos", original_text := "vouch @Alice", canonical_text := "c"
  , chat_id := 5, message_id := some 1, is_sanitized := false
  , timestamp := 50, created_at := "t" }

theorem resolve_username_backfills_witness :
    (∀ p ∈ ({ vouches := [c8row], username_history := [] } : LedgerDb).vouches.zip
        (update_vouches_with_resolved_user_id (some 5) "alice" 42
          { vouches := [c8row], username_history := [] }).2.vouches,
        resolveCond (some 5) (String.mk (lowerStr (lstripAt "alice".data))) p.1 = true →
          p.2.to_user_id = some 42) ∧
    (⟨42, String.mk (lowerStr (lstripAt "alice".data))⟩ : UsernameHistRow) ∈
      (update_vouches_with_resolved_user_id (some 5) "alice" 42
        { vouches := [c8row], username_history := [] }).2.username_history ∧
    (update_vouches_with_resolved_user_id (some 5) "alice" 42
        (update_vouches_with_resolved_user_id (some 5) "alice" 42
          { vouches := [c8row], username_history := [] }).2).2.vouches =
      (update_vouches_with_resolved_user_id (some 5) "alice" 42
        { vouches := [c8row], username_history := [] }).2.vouches :=
  resolve_username_backfills 5 "alice" 42
    { vouches := [c8row], username_history := [] } (by decide)

/-! C2: the source's idempotency check in `store_vouch` keys on
(author id, chat id, original text, lowered target handle) — not on the
origin message id that the claim names.  Two stores with identical
(author, chat, message id, target) but different original texts both
insert. -/

def c2args1 : StoreArgs :=
  { from_user_id := 1, from_username := some "alice", from_display_name := none
  , to_user_id := none, to_username := some "bob", to_display_name := none
  , polarity := "pos", original_text := "vouch @bob nice", canonical_text := "c1"
  , chat_id := 10, message_id := some 5, is_sanitized := false }

def c2args2 : StoreArgs :=
  { c2args1 with original_text := "vouch @bob fast", canonical_text := "c2" }

/-- C2 counterexample: the two calls agree on author id, chat id, message
id and target handle, yet the second one stores a second row (returns
`true`, not the duplicate sentinel), because the key the code checks uses
the original text instead of the message id. -/
theorem store_vouch_message_id_key_counterexample :
    c2args2.from_user_id = c2args1.from_user_id ∧
    c2args2.chat_id = c2args1.chat_id ∧
    c2args2.message_id = c2args1.message_id ∧
    c2args2.to_username = c2args1.to_username ∧
    (store_vouch c2args2 1001 "t2" (store_vouch c2args1 1000 "t1" []).2).1 = true ∧
    (store_vouch c2args2 1001 "t2" (store_vouch c2args1 1000 "t1" []).2).2.length = 2 := by
  decide

theorem storeDupCheck_congr (a1 a2 : StoreArgs)
    (hkey : a2.from_user_id = a1.from_user_id ∧ a2.chat_id = a1.chat_id ∧
            a2.original_text = a1.original_text ∧
            normalize_for_index a2.to_username = normalize_for_index a1.to_username)
    (r : VouchRow) : storeDupCheck a2 r = storeDupCheck a1 r := by
  obtain ⟨h1, h2, h3, h4⟩ := hkey
  unfold storeDupCheck
  rw [h1, h2, h3, h4]

/-- C2 amended: the idempotency key of `store_vouch` is (author numeric id,
origin chat id, original text, lower-cased target handle): a second store
call with identical values for that key is silently rejected (returns the
duplicate sentinel `false`, no error), leaves the store unchanged, and —
when the store held no row for that key before the first call — leaves
exactly one stored row for that key. -/
theorem store_vouch_idempotency_key (a1 a2 : StoreArgs) (db : List VouchRow)
    (now1 now2 : Rat) (t1 t2 : String)
    (hkey : a2.from_user_id = a1.from_user_id ∧ a2.chat_id = a1.chat_id ∧
            a2.original_text = a1.original_text ∧
            normalize_for_index a2.to_username = normalize_for_index a1.to_username) :
    (store_vouch a2 now2 t2 (store_vouch a1 now1 t1 db).2).1 = false ∧
    (store_vouch a2 now2 t2 (store_vouch a1 now1 t1 db).2).2 =
      (store_vouch a1 now1 t1 db).2 ∧
    (db.countP (storeDupCheck a1) = 0 →
      ((store_vouch a2 now2 t2 (store_vouch a1 now1 t1 db).2).2.countP
          (storeDupCheck a1) = 1)) := by
  have hrow : storeDupCheck a1 (storeRow a1 now1 t1) = true := by
    unfold storeDupCheck storeRow
    simp
  by_cases hd : db.any (storeDupCheck a1) = true
  · have h1 : store_vouch a1 now1 t1 db = (false, db) := by
      unfold store_vouch
      rw [if_pos hd]
    have h2 : db.any (storeDupCheck a2) = true := by
      rw [List.any_eq_true] at hd ⊢
      obtain ⟨r, hr, hp⟩ := hd
      exact ⟨r, hr, by rw [storeDupCheck_congr a1 a2 hkey]; exact hp⟩
    have h3 : store_vouch a2 now2 t2 db = (false, db) := by
      unfold store_vouch
      rw [if_pos h2]
    rw [h1]
    refine ⟨by rw [h3], by rw [h3], fun hcount => ?_⟩
    exfalso
    rw [List.any_eq_true] at hd
    obtain ⟨r, hr, hp⟩ := hd
    exact absurd hp (by simpa using List.countP_eq_zero.mp hcount r hr)
  · have h1 : store_vouch a1 now1 t1 db = (true, db ++ [storeRow a1 now1 t1]) := by
      unfold store_vouch
      rw [if_neg hd]
    have h2 : (db ++ [storeRow a1 now1 t1]).any (storeDupCheck a2) = true := by
      rw [List.any_eq_true]
      exact ⟨storeRow a1 now1 t1, by simp,
        by rw [storeDupCheck_congr a1 a2 hkey]; exact hrow⟩
    have h3 : store_vouch a2 now2 t2 (db ++ [storeRow a1 now1 t1]) =
        (false, db ++ [storeRow a1 now1 t1]) := by
      unfold store_vouch
      rw [if_pos h2]
    rw [h1]
    refine ⟨by rw [h3], by rw [h3], fun hcount => ?_⟩
    rw [h3]
    simp only [List.countP_append, hcount, List.countP_cons, hrow]
    rfl

theorem store_vouch_idempotency_key_witness :
    (store_vouch c2args1 1001 "t2" (store_vouch c2args1 1000 "t1" []).2).1 = false ∧
    (store_vouch c2args1 1001 "t2" (store_vouch c2args1 1000 "t1" []).2).2 =
      (store_vouch c2args1 1000 "t1" []).2 ∧
    (([] : List VouchRow).countP (storeDupCheck c2args1) = 0 →
      ((store_vouch c2args1 1001 "t2" (store_vouch c2args1 1000 "t1" []).2).2.countP
          (storeDupCheck c2args1) = 1)) :=
  store_vouch_idempotency_key c2args1 c2args1 [] 1000 1001 "t1" "t2"
    ⟨rfl, rfl, rfl, rfl⟩

/-- The acceptance condition C5 names: critical at any confidence, high at
`≥ 0.70`, medium at `≥ 0.75`, low at `≥ 0.80`. -/
def aiThresholdOk (a : AiVerdict) : Prop :=
  a.severity = "critical" ∨
    (a.severity = "high" ∧ a.confidence ≥ 70 / 100) ∨
    (a.severity = "medium" ∧ a.confidence ≥ 75 / 100) ∨
    (a.severity = "low" ∧ a.confidence ≥ 80 / 100)

instance (a : AiVerdict) : Decidable (aiThresholdOk a) := by
  unfold aiThresholdOk
  infer_instance

/-- The reason string the pipeline attaches to an accepted AI verdict. -/
def aiAcceptReason (a : AiVerdict) : String :=
  if a.severity = "critical" then "AI CRITICAL: " ++ a.reason else "AI detected: " ++ a.reason

/-- C5: in the remote-semantic layer of `check_message` (reached when the
pattern and toxicity layers found nothing), a returned violation verdict is
accepted — producing `should_remove = true` with the verdict's severity —
exactly when its confidence meets the severity-tier threshold (critical at
any confidence, high `≥ 0.70`, medium `≥ 0.75`, low `≥ 0.80`); otherwise
the pipeline concludes clean with severity `low`. -/
theorem check_message_ai_thresholds (t : String) (tox : Option ToxOut) (a : AiVerdict)
    (hpat : (check_patterns t).1 = false)
    (htox : (check_toxicity tox).1 = false)
    (hv : a.verdict = "VIOLATION") :
    check_message t tox true (some a) =
      if aiThresholdOk a then (true, aiAcceptReason a, a.severity, is_vouch t)
      else (false, "", "low", is_vouch t) := by
  unfold check_message
  conv_lhs => rw [if_neg (by simp [hpat]), if_neg (by simp [htox]), if_pos rfl]
  show (if a.verdict = "VIOLATION" then _ else _) = _
  conv_lhs => rw [if_pos hv]
  by_cases hc : a.severity = "critical"
  · conv_lhs => rw [if_pos hc]
    rw [if_pos (show aiThresholdOk a from Or.inl hc)]
    unfold aiAcceptReason
    rw [if_pos hc, hc]
  · conv_lhs => rw [if_neg hc]
    by_cases hh : a.severity = "high" ∧ a.confidence ≥ 70 / 100
    · conv_lhs => rw [if_pos hh]
      rw [if_pos (show aiThresholdOk a from Or.inr (Or.inl hh))]
      unfold aiAcceptReason
      rw [if_neg hc, hh.1]
    · conv_lhs => rw [if_neg hh]
      by_cases hm : a.severity = "medium" ∧ a.confidence ≥ 75 / 100
      · conv_lhs => rw [if_pos hm]
        rw [if_pos (show aiThresholdOk a from Or.inr (Or.inr (Or.inl hm)))]
        unfold aiAcceptReason
        rw [if_neg hc, hm.1]
      · conv_lhs => rw [if_neg hm]
        by_cases hl : a.severity = "low" ∧ a.confidence ≥ 80 / 100
        · conv_lhs => rw [if_pos hl]
          rw [if_pos (show aiThresholdOk a from Or.inr (Or.inr (Or.inr hl)))]
          unfold aiAcceptReason
          rw [if_neg hc, hl.1]
        · conv_lhs => rw [if_neg hl]
          rw [if_neg (show ¬ aiThresholdOk a by unfold aiThresholdOk; tauto)]

theorem check_message_ai_thresholds_witness :
    (check_message "hi all" none true
        (some { verdict := "VIOLATION", confidence := 9 / 10
              , reason := "x", severity := "high" }) =
      if aiThresholdOk { verdict := "VIOLATION", confidence := 9 / 10
                       , reason := "x", severity := "high" }
      then (true, aiAcceptReason { verdict := "VIOLATION", confidence := 9 / 10
                                 , reason := "x", severity := "high" },
            "high", is_vouch "hi all")
      else (false, "", "low", is_vouch "hi all")) :=
  check_message_ai_thresholds "hi all" none _ (by decide) (by decide) rfl

/-! C3: when the only `@`-mention of a vouch-like text is the author's own
handle, `extract_vouch_info` does NOT return none: the target selection
prefers a non-author mention but falls back to `mentions[0]`, so the vouch
targets the author. -/

/-- C3 counterexample: "vouch @alice" sent by alice — the only mention is
the author's own handle, yet extraction succeeds and targets `@alice`
instead of returning none. -/
theorem extract_self_vouch_counterexample :
    extract_vouch_info "vouch @alice" (some "alice") =
      some { from_username := "@alice", to_username := "@alice"
           , polarity := "pos", excerpt := "vouch @alice", watchers := [] } := by
  decide

/-- C3 amended: for every vouch-like text (long enough, not a vouch
request) whose `@`-mentions all equal the author's own handle
(case-insensitively), `extract_vouch_info` returns a vouch whose target is
the first mention — the author's own handle — rather than none. -/
theorem extract_self_vouch_targets_author (text author m0 : String) (ms : List String)
    (hlen : (text = "" || text.length < 5) = false)
    (hreq : is_vouch_request (String.mk (lowerStr (stripWs text.data))) = false)
    (hauthor : author ≠ "")
    (hms : (extractVouchMentionsL (stripWs text.data)).map String.mk = m0 :: ms)
    (hall : ∀ m ∈ m0 :: ms, lowerStr (lstripAt m.data) = lowerStr (lstripAt author.data)) :
    ∃ vi, extract_vouch_info text (some author) = some vi ∧ vi.to_username = m0 := by
  have hfind : ((m0 :: ms).find? fun m =>
      lowerStr (lstripAt m.data) ≠ lowerStr (lstripAt author.data)) = none := by
    rw [List.find?_eq_none]
    intro x hx
    simp [hall x hx]
  unfold extract_vouch_info
  rw [if_neg (by simp [hlen]), if_neg (by simp [hreq]), hms]
  simp only [hauthor, if_neg, ite_false, hfind, Option.getD_none]
  exact ⟨_, rfl, rfl⟩

theorem extract_self_vouch_targets_author_witness :
    ∃ vi, extract_vouch_info "vouch @ALICE pro" (some "alice") = some vi ∧
      vi.to_username = "@ALICE" :=
  extract_self_vouch_targets_author "vouch @ALICE pro" "alice" "@ALICE" []
    (by decide) (by decide) (by decide) (by decide) (by decide)

/-! C4: when a message is decided a clean vouch, the routing does persist
one row per non-duplicate target and sends one acknowledgment — but it
does NOT leave the original message in place: `handle_clean_vouch` issues
`message.delete()` on the original and posts a canonical repost. -/

def c4msg : MsgIn :=
  { text := "vouch @bob great trader", chat_id := -100, message_id := 500
  , from_user_id := 1, from_first_name := some "Alice" }

def c4w0 : World :=
  { db := [], effects := [], nextMsgId := 900, now := 1000000
  , nowIso := "2026-01-01T00:00:00" }

/-- C4 counterexample: a clean vouch ("vouch @bob great trader" by alice,
empty ledger) — the routing issues a delete of the original chat message,
contrary to the claim that the original is left in place. -/
theorem handle_clean_vouch_deletes_counterexample :
    Effect.deleteOriginal 500 ∈ (handle_clean_vouch c4msg (some "alice") c4w0).effects := by
  decide

theorem filterMap_if_none_eq_map {α β : Type} (p : α → Bool) (g : α → β) :
    ∀ l : List α, (∀ x ∈ l, p x = false) →
      (l.filterMap fun x => if p x then none else some (g x)) = l.map g := by
  intro l h
  induction l with
  | nil => rfl
  | cons x xs ih =>
      rw [List.filterMap_cons]
      have hx := h x (by simp)
      simp only [hx, Bool.false_eq_true, if_false, ite_false, List.map_cons]
      rw [ih fun y hy => h y (by simp [hy])]

/-- Invariant of the `store_vouch` loop of `handle_clean_vouch`: every row
already present either predates this message (differs in chat, author or
original text) or targets a different lowered handle than every pending
entry. -/
def cleanLoopFresh (m : MsgIn) (es : List (String × String)) (d : List VouchRow) : Prop :=
  ∀ e ∈ es, ∀ r ∈ d,
    (decide (r.chat_id = m.chat_id) && decide (r.from_user_id = m.from_user_id) &&
      decide (r.original_text = m.text)) = false ∨
    r.to_username_lower ≠ normalize_for_index (some e.1)

theorem cleanStore_dup_false (m : MsgIn) (fu : Option String) (pol : String) (sid : Int)
    (e : String × String) (r : VouchRow)
    (h : (decide (r.chat_id = m.chat_id) && decide (r.from_user_id = m.from_user_id) &&
          decide (r.original_text = m.text)) = false ∨
         r.to_username_lower ≠ normalize_for_index (some e.1)) :
    storeDupCheck (cleanStoreArgs m fu pol sid e) r = false := by
  unfold storeDupCheck cleanStoreArgs
  rcases h with h | h
  · simp only [Bool.and_eq_false_iff] at h ⊢
    tauto
  · simp [h]

theorem fold_store_length (m : MsgIn) (fu : Option String) (pol : String) (sid : Int)
    (now : Rat) (iso : String) :
    ∀ (es : List (String × String)) (d : List VouchRow),
      cleanLoopFresh m es d →
      es.Pairwise (fun e1 e2 => normalize_for_index (some e1.1) ≠ normalize_for_index (some e2.1)) →
      (es.foldl (fun d tc =>
          (store_vouch (cleanStoreArgs m fu pol sid tc) now iso d).2) d).length =
        d.length + es.length := by
  intro es
  induction es with
  | nil => intro d _ _; simp
  | cons e es ih =>
      intro d hinv hpw
      rw [List.foldl_cons]
      have hnodup : d.any (storeDupCheck (cleanStoreArgs m fu pol sid e)) = false := by
        rw [List.any_eq_false]
        intro r hr
        rw [cleanStore_dup_false m fu pol sid e r (hinv e (by simp) r hr)]
        simp
      have hstep : (store_vouch (cleanStoreArgs m fu pol sid e) now iso d).2 =
          d ++ [storeRow (cleanStoreArgs m fu pol sid e) now iso] := by
        unfold store_vouch
        rw [hnodup]
        simp
      rw [hstep, ih (d ++ [storeRow (cleanStoreArgs m fu pol sid e) now iso]) ?_ hpw.of_cons]
      · simp only [List.length_append, List.length_cons, List.length_nil]
        omega
      · intro e' he' r hr
        rcases List.mem_append.mp hr with hrd | hrnew
        · exact hinv e' (by simp [he']) r hrd
        · right
          have : r = storeRow (cleanStoreArgs m fu pol sid e) now iso := by
            simpa using hrnew
          rw [this]
          show normalize_for_index (some e.1) ≠ normalize_for_index (some e'.1)
          exact (List.pairwise_cons.mp hpw).1 e' he'

/-- C4 amended: for a clean vouch with at least one extracted target, none
of which hits the 24h duplicate rule (and none of which collides with a
pre-existing row for this message's idempotency key), the routing DELETES
the original chat message, posts exactly one canonical repost, persists
exactly one Vouch row per extracted target (each carrying the repost's
message id), and sends exactly one acknowledgment. -/
theorem handle_clean_vouch_deletes_and_stores (m : MsgIn) (fu : Option String)
    (w : World) (vinfo : VouchInfo)
    (hvi : extract_vouch_info m.text fu = some vinfo)
    (hts : collect_target_usernames m.text fu ≠ [])
    (hnodup : ∀ t ∈ collect_target_usernames m.text fu,
        check_vouch_duplicate_24h m.from_user_id (some t) vinfo.polarity w.now w.db = false)
    (hfresh : ∀ r ∈ w.db,
        (decide (r.chat_id = m.chat_id) && decide (r.from_user_id = m.from_user_id) &&
          decide (r.original_text = m.text)) = false)
    (hdistinct : (collect_target_usernames m.text fu).Pairwise
        (fun a b => normalize_for_index (some a) ≠ normalize_for_index (some b))) :
    ∃ postText,
      (handle_clean_vouch m fu w).effects = w.effects ++
        [Effect.deleteOriginal m.message_id,
         Effect.postCanonical m.chat_id postText w.nextMsgId,
         Effect.tempAck m.chat_id "[OK] Thank you. Vouch logged and printed."
           (some w.nextMsgId)] ∧
      (handle_clean_vouch m fu w).db.length =
        w.db.length + (collect_target_usernames m.text fu).length := by
  have hmap : (collect_target_usernames m.text fu).filterMap (fun t =>
      if check_vouch_duplicate_24h m.from_user_id (some t) vinfo.polarity w.now w.db
      then none else some (cleanEntry vinfo vinfo.polarity w.db t)) =
      (collect_target_usernames m.text fu).map (cleanEntry vinfo vinfo.polarity w.db) :=
    filterMap_if_none_eq_map _ _ _ hnodup
  have hne : (collect_target_usernames m.text fu).map
      (cleanEntry vinfo vinfo.polarity w.db) ≠ [] := by
    intro hcon
    exact hts (List.map_eq_nil_iff.mp hcon)
  have hred : handle_clean_vouch m fu w =
      { db := ((collect_target_usernames m.text fu).map
            (cleanEntry vinfo vinfo.polarity w.db)).foldl
          (fun d tc => (store_vouch (cleanStoreArgs m fu vinfo.polarity w.nextMsgId tc)
              w.now w.nowIso d).2) w.db
      , effects := w.effects ++
          [Effect.deleteOriginal m.message_id,
           Effect.postCanonical m.chat_id
             (String.intercalate "\n\n"
               (((collect_target_usernames m.text fu).map
                  (cleanEntry vinfo vinfo.polarity w.db)).map Prod.snd)) w.nextMsgId,
           Effect.tempAck m.chat_id "[OK] Thank you. Vouch logged and printed."
             (some w.nextMsgId)]
      , nextMsgId := w.nextMsgId + 1
      , now := w.now
      , nowIso := w.nowIso } := by
    unfold handle_clean_vouch
    rw [hvi]
    show (if collect_target_usernames m.text fu = [] then w else _) = _
    rw [if_neg hts]
    show (if (collect_target_usernames m.text fu).filterMap _ = [] then _ else _) = _
    rw [hmap, if_neg hne]
  refine ⟨String.intercalate "\n\n"
      (((collect_target_usernames m.text fu).map
        (cleanEntry vinfo vinfo.polarity w.db)).map Prod.snd), ?_, ?_⟩
  · rw [hred]
  · rw [hred]
    show (((collect_target_usernames m.text fu).map
        (cleanEntry vinfo vinfo.polarity w.db)).foldl _ w.db).length = _
    rw [fold_store_length m fu vinfo.polarity w.nextMsgId w.now w.nowIso _ w.db ?_ ?_,
      List.length_map]
    · intro e _ r hr
      exact Or.inl (hfresh r hr)
    · have : ∀ (l : List String), l.Pairwise
          (fun a b => normalize_for_index (some a) ≠ normalize_for_index (some b)) →
          (l.map (cleanEntry vinfo vinfo.polarity w.db)).Pairwise
            (fun e1 e2 => normalize_for_index (some e1.1) ≠ normalize_for_index (some e2.1)) := by
        intro l hl
        refine List.pairwise_map.mpr (hl.imp ?_)
        intro a b hab
        simpa [cleanEntry] using hab
      exact this _ hdistinct

theorem handle_clean_vouch_deletes_and_stores_witness :
    ∃ postText,
      (handle_clean_vouch c4msg (some "alice") c4w0).effects = c4w0.effects ++
        [Effect.deleteOriginal c4msg.message_id,
         Effect.postCanonical c4msg.chat_id postText c4w0.nextMsgId,
         Effect.tempAck c4msg.chat_id "[OK] Thank you. Vouch logged and printed."
           (some c4w0.nextMsgId)] ∧
      (handle_clean_vouch c4msg (some "alice") c4w0).db.length =
        c4w0.db.length + (collect_target_usernames c4msg.text (some "alice")).length :=
  handle_clean_vouch_deletes_and_stores c4msg (some "alice") c4w0
    { from_username := "@alice", to_username := "@bob", polarity := "pos"
    , excerpt := "vouch @bob great trader", watchers := [] }
    (by decide) (by decide) (by decide) (by decide) (by decide)

theorem store_vouch_normalized_columns_witness :
    ∃ r, (store_vouch
        { from_user_id := 1, from_username := some "Alice", from_display_name := none
        , to_user_id := none, to_username := some "Bob", to_display_name := some ""
        , polarity := "pos", original_text := "vouch @Bob", canonical_text := "c"
        , chat_id := 7, message_id := some 3, is_sanitized := false } 100 "t" []).2 =
      [] ++ [r] ∧
      r.from_username = some "Alice" ∧
      r.to_username = some "Bob" ∧
      r.from_display_name = none ∧
      r.to_display_name = some "" ∧
      loweredColMatches r.from_username r.from_username_lower ∧
      loweredColMatches r.to_username r.to_username_lower ∧
      loweredColMatches r.from_display_name r.from_display_name_lower ∧
      loweredColMatches r.to_display_name r.to_display_name_lower :=
  store_vouch_normalized_columns _ 100 "t" [] (by decide)

end Modbot
